import Mathlib

/-!
Verification of the codepoint-allocation, layout-validation and
composite-glyph-resolution core of tools/fontgen/generate.py.

Modelling conventions used throughout:
  - Python floats are modelled as exact rationals.
  - FontForge glyph metrics (bounding box and advance width) are a record of
    rationals; a loaded font is modelled as a partial lookup from characters
    to metrics.
  - Python exceptions are modelled with Except; distinct raise sites are
    distinguished by error-type constructors.
  - The in-place mutation that assign_codepoints performs on its input spec
    is modelled by returning the post-call state of the spec alongside the
    function result.
-/

namespace Fontgen

/-- Geometry dataclass (generate.py lines 50-61): positioning parameters for
dots and symbols. -/
structure Geometry where
  dot_above_gap : ℚ
  dot_below_gap : ℚ
  dot_vertical_step : ℚ
  dot_horizontal_center : Bool
  accidental_scale : ℚ
  accidental_x_offset : ℚ
  accidental_y_offset : ℚ
  barline_scale : ℚ
  ornament_scale : ℚ
deriving DecidableEq, Repr

/-- SMuFLSymbol dataclass (lines 64-72): a symbol from the SMuFL standard. -/
structure SMuFLSymbol where
  glyph_name : String
  label : String
  smufl_codepoint : Nat
  codepoint_offset : Int
  source_font : String
  assigned_codepoint : Option Nat
deriving DecidableEq, Repr

/-- NoteAtom dataclass (lines 75-81): a base character plus octave-dot
variant index (0 = one dot above, 1 = two above, 2 = one below, 3 = two
below). -/
structure NoteAtom where
  system : String
  character : Char
  variant_index : Nat
  assigned_codepoint : Option Nat
deriving DecidableEq, Repr

/-- AtomSpec dataclass (lines 84-92).  notation_systems is a Python dict,
modelled as an insertion-ordered association list with distinct keys.  The
accidental_composites configuration dict is only consulted for symbol
codepoints and ranges, which the composite functions below receive as
explicit parameters. -/
structure AtomSpec where
  notation_systems : List (String × List Char)
  smufl_symbols : List SMuFLSymbol
  geometry : Geometry
  character_order : List Char
  pua_start : Nat
deriving DecidableEq, Repr

/-- CodepointLayout dataclass (lines 95-101): result of allocation. -/
structure CodepointLayout where
  note_atoms : List NoteAtom
  symbols : List SMuFLSymbol
  notes_range : Int × Int
  symbols_range : Nat × Nat
deriving DecidableEq, Repr

/-- Exceptions escaping assign_codepoints: the unbound-local NameError raised
by the symbols-range summary line (line 257) when the symbol list is empty,
and the OverflowError of the PUA ceiling check (lines 260-263), carrying the
number of codepoints the message reports as used. -/
inductive AllocError where
  | nameError : AllocError
  | overflow : Int → AllocError
deriving DecidableEq, Repr

/-- Innermost allocation loop (lines 224-232): for variant_idx in range(4),
append a NoteAtom carrying the running codepoint counter and increment it. -/
def variantFold (system : String) (char : Char) (acc : List NoteAtom × Nat) :
    List NoteAtom × Nat :=
  (List.range 4).foldl
    (fun a variant_idx =>
      (a.1 ++ [{ system := system, character := char, variant_index := variant_idx,
                 assigned_codepoint := some a.2 }], a.2 + 1))
    acc

/-- Middle allocation loop (line 223): for char in characters. -/
def charsFold (system : String) (characters : List Char)
    (acc : List NoteAtom × Nat) : List NoteAtom × Nat :=
  characters.foldl (fun a char => variantFold system char a) acc

/-- Outer allocation loop (line 222): for system_name, characters in
spec.notation_systems.items(). -/
def systemsFold (systems : List (String × List Char))
    (acc : List NoteAtom × Nat) : List NoteAtom × Nat :=
  systems.foldl (fun a s => charsFold s.1 s.2 a) acc

/-- The note-atom list built by the allocation loop starting from an empty
list and the starting codepoint (lines 218-232). -/
def noteAtomsOf (systems : List (String × List Char)) (start : Nat) :
    List NoteAtom :=
  (systemsFold systems ([], start)).1

/-- The symbol-assignment loop of assign_codepoints (lines 243-246): each
symbol gets its standard SMuFL codepoint as assigned codepoint.  In Python
this mutates the SMuFLSymbol objects of the input spec in place. -/
def mutateSymbols (symbols : List SMuFLSymbol) : List SMuFLSymbol :=
  symbols.map (fun s => { s with assigned_codepoint := some s.smufl_codepoint })

/-- Stage 2, assign_codepoints (lines 202-270).  The Python function mutates
spec.smufl_symbols in place (line 245) and can raise; the model returns the
Except result together with the post-call state of the spec. -/
def assign_codepoints (spec : AtomSpec) :
    Except AllocError CodepointLayout × AtomSpec :=
  let start := spec.pua_start
  let r := systemsFold spec.notation_systems ([], start)
  let note_atoms := r.1
  let cp := r.2
  let notes_range : Int × Int := ((start : Int), (cp : Int) - 1)
  let symbols := mutateSymbols spec.smufl_symbols
  let specAfter := { spec with smufl_symbols := symbols }
  match spec.smufl_symbols with
  | [] =>
      (Except.error AllocError.nameError, specAfter)
  | s0 :: rest =>
      let symbol_cps := (s0 :: rest).map (fun s => s.smufl_codepoint)
      let symbols_start := (symbol_cps.min?).getD 0
      let symbols_end := (symbol_cps.max?).getD 0
      if cp > 0xF8FF then
        (Except.error (AllocError.overflow ((cp : Int) - 0xE000)), specAfter)
      else
        (Except.ok { note_atoms := note_atoms, symbols := symbols,
                     notes_range := notes_range,
                     symbols_range := (symbols_start, symbols_end) }, specAfter)

/-- Total number of characters over all systems. -/
def totalChars (systems : List (String × List Char)) : Nat :=
  (systems.map (fun s => s.2.length)).sum

/-- Claim-side allocator for one system's character list, following the claim
wording: each character emits exactly 4 NoteAtoms (variants 0..3) at four
consecutive codepoints, and the counter advances by 4 per character. -/
def claimChars (system : String) (cp : Nat) : List Char → List NoteAtom
  | [] => []
  | c :: cs =>
      { system := system, character := c, variant_index := 0,
        assigned_codepoint := some cp } ::
      { system := system, character := c, variant_index := 1,
        assigned_codepoint := some (cp + 1) } ::
      { system := system, character := c, variant_index := 2,
        assigned_codepoint := some (cp + 2) } ::
      { system := system, character := c, variant_index := 3,
        assigned_codepoint := some (cp + 3) } ::
      claimChars system (cp + 4) cs

/-- Claim-side allocator over all systems, following the claim wording: walk
systems in declaration order with one running counter across the whole
walk. -/
def claimNoteAlloc (cp : Nat) : List (String × List Char) → List NoteAtom
  | [] => []
  | s :: rest => claimChars s.1 cp s.2 ++ claimNoteAlloc (cp + 4 * s.2.length) rest

lemma variantFold_eq (system : String) (c : Char) (atoms : List NoteAtom)
    (cp : Nat) :
    variantFold system c (atoms, cp) =
      (atoms ++
        [{ system := system, character := c, variant_index := 0,
           assigned_codepoint := some cp },
         { system := system, character := c, variant_index := 1,
           assigned_codepoint := some (cp + 1) },
         { system := system, character := c, variant_index := 2,
           assigned_codepoint := some (cp + 2) },
         { system := system, character := c, variant_index := 3,
           assigned_codepoint := some (cp + 3) }], cp + 4) := by
  have h4 : List.range 4 = [0, 1, 2, 3] := rfl
  simp only [variantFold, h4, List.foldl_cons, List.foldl_nil]
  simp [List.append_assoc]

lemma charsFold_eq (system : String) (characters : List Char) :
    ∀ (atoms : List NoteAtom) (cp : Nat),
      charsFold system characters (atoms, cp) =
        (atoms ++ claimChars system cp characters,
         cp + 4 * characters.length) := by
  induction characters with
  | nil => intro atoms cp; simp [charsFold, claimChars]
  | cons c cs ih =>
      intro atoms cp
      have h1 : charsFold system (c :: cs) (atoms, cp)
          = charsFold system cs (variantFold system c (atoms, cp)) := by
        simp [charsFold]
      rw [h1, variantFold_eq, ih]
      refine Prod.ext ?_ ?_
      · simp [claimChars, List.append_assoc]
      · simp; omega

lemma systemsFold_eq (systems : List (String × List Char)) :
    ∀ (atoms : List NoteAtom) (cp : Nat),
      systemsFold systems (atoms, cp) =
        (atoms ++ claimNoteAlloc cp systems, cp + 4 * totalChars systems) := by
  induction systems with
  | nil => intro atoms cp; simp [systemsFold, claimNoteAlloc, totalChars]
  | cons s rest ih =>
      intro atoms cp
      have h1 : systemsFold (s :: rest) (atoms, cp)
          = systemsFold rest (charsFold s.1 s.2 (atoms, cp)) := by
        simp [systemsFold]
      rw [h1, charsFold_eq, ih]
      refine Prod.ext ?_ ?_
      · simp [claimNoteAlloc, List.append_assoc]
      · simp [totalChars]; ring

lemma noteAtomsOf_eq (systems : List (String × List Char)) (start : Nat) :
    noteAtomsOf systems start = claimNoteAlloc start systems := by
  simp [noteAtomsOf, systemsFold_eq]

lemma systemsFold_counter (systems : List (String × List Char)) (start : Nat) :
    (systemsFold systems ([], start)).2 = start + 4 * totalChars systems := by
  simp [systemsFold_eq]

lemma claimChars_append (system : String) (l1 l2 : List Char) :
    ∀ cp, claimChars system cp (l1 ++ l2) =
      claimChars system cp l1 ++ claimChars system (cp + 4 * l1.length) l2 := by
  induction l1 with
  | nil => intro cp; simp [claimChars]
  | cons c cs ih =>
      intro cp
      have h : cp + 4 + 4 * cs.length = cp + 4 * (cs.length + 1) := by ring
      show claimChars system cp (c :: (cs ++ l2)) = _
      rw [claimChars, ih (cp + 4), h]
      simp [claimChars, List.cons_append, List.length_cons]

lemma mem_claimChars (system : String) (chars : List Char) :
    ∀ (cp : Nat) (a : NoteAtom), a ∈ claimChars system cp chars →
      ∃ k, k < 4 * chars.length ∧ a.assigned_codepoint = some (cp + k) := by
  induction chars with
  | nil => intro cp a ha; simp [claimChars] at ha
  | cons c cs ih =>
      intro cp a ha
      simp only [claimChars, List.mem_cons] at ha
      rcases ha with h | h | h | h | h
      · exact ⟨0, by simp only [List.length_cons]; omega, by simp [h]⟩
      · exact ⟨1, by simp only [List.length_cons]; omega, by simp [h]⟩
      · exact ⟨2, by simp only [List.length_cons]; omega, by simp [h]⟩
      · exact ⟨3, by simp only [List.length_cons]; omega, by simp [h]⟩
      · obtain ⟨k, hk, hcp⟩ := ih (cp + 4) a h
        refine ⟨4 + k, by simp only [List.length_cons]; omega, ?_⟩
        rw [hcp]; congr 1; omega

lemma mem_claimNoteAlloc (systems : List (String × List Char)) :
    ∀ (cp : Nat) (a : NoteAtom), a ∈ claimNoteAlloc cp systems →
      ∃ k, k < 4 * totalChars systems ∧ a.assigned_codepoint = some (cp + k) := by
  induction systems with
  | nil => intro cp a ha; simp [claimNoteAlloc] at ha
  | cons s rest ih =>
      intro cp a ha
      simp only [claimNoteAlloc, List.mem_append] at ha
      rcases ha with h | h
      · obtain ⟨k, hk, hcp⟩ := mem_claimChars s.1 s.2 cp a h
        refine ⟨k, ?_, hcp⟩
        simp only [totalChars, List.map_cons, List.sum_cons]
        omega
      · obtain ⟨k, hk, hcp⟩ := ih (cp + 4 * s.2.length) a h
        refine ⟨4 * s.2.length + k, ?_, ?_⟩
        · simp only [totalChars, List.map_cons, List.sum_cons] at hk ⊢
          omega
        · rw [hcp]; congr 1; omega

/-- Characterization of the result of assign_codepoints on an empty symbol
list: the NameError of the symbols-range summary line (line 257). -/
lemma assign_result_nil (spec : AtomSpec) (h : spec.smufl_symbols = []) :
    (assign_codepoints spec).1 = Except.error AllocError.nameError := by
  simp [assign_codepoints, h]

/-- Characterization of the result of assign_codepoints on a non-empty
symbol list: an OverflowError exactly when the final counter start + 4N
exceeds 0xF8FF, and otherwise the allocated layout. -/
lemma assign_result_cons (spec : AtomSpec) (s0 : SMuFLSymbol)
    (rest : List SMuFLSymbol) (h : spec.smufl_symbols = s0 :: rest) :
    (assign_codepoints spec).1 =
      (if spec.pua_start + 4 * totalChars spec.notation_systems > 0xF8FF then
        Except.error (AllocError.overflow
          (((spec.pua_start + 4 * totalChars spec.notation_systems : Nat) : Int) - 0xE000))
      else Except.ok
        { note_atoms := claimNoteAlloc spec.pua_start spec.notation_systems,
          symbols := mutateSymbols (s0 :: rest),
          notes_range := ((spec.pua_start : Int),
            ((spec.pua_start + 4 * totalChars spec.notation_systems : Nat) : Int) - 1),
          symbols_range :=
            ((((s0 :: rest).map (fun s => s.smufl_codepoint)).min?).getD 0,
             (((s0 :: rest).map (fun s => s.smufl_codepoint)).max?).getD 0) }) := by
  simp only [assign_codepoints, h, systemsFold_eq, List.nil_append]
  split <;> rfl

/-- Characterization of the post-call state of the input spec: the symbol
list has been mutated in place (assigned_codepoint set on every symbol,
lines 243-246), and no other field has changed.  The mutation happens on
every path, including the error paths. -/
lemma assign_spec_after (spec : AtomSpec) :
    (assign_codepoints spec).2 =
      { spec with smufl_symbols := mutateSymbols spec.smufl_symbols } := by
  cases h : spec.smufl_symbols with
  | nil => simp [assign_codepoints, h]
  | cons s0 rest =>
      simp only [assign_codepoints, h]
      split <;> rfl

/-- Geometry values as loaded from atoms.yaml defaults (lines 151-161). -/
def exampleGeometry : Geometry :=
  { dot_above_gap := 50, dot_below_gap := 50, dot_vertical_step := 100,
    dot_horizontal_center := true, accidental_scale := 1,
    accidental_x_offset := 0, accidental_y_offset := 0,
    barline_scale := 1, ornament_scale := 1 }

/-- A sample SMuFL symbol (sharp at its standard codepoint). -/
def exampleSymbol : SMuFLSymbol :=
  { glyph_name := "accidentalSharp", label := "Sharp", smufl_codepoint := 0xE262,
    codepoint_offset := 0, source_font := "noto_music", assigned_codepoint := none }

/-- The spec of example scenario 1: single system with characters 1..7 and
pua_start 0xE000.  One symbol is included so that allocation completes (with
an empty symbol list assign_codepoints raises; see claim C10). -/
def exampleSpec : AtomSpec :=
  { notation_systems := [("number", ['1', '2', '3', '4', '5', '6', '7'])],
    smufl_symbols := [exampleSymbol],
    geometry := exampleGeometry,
    character_order := ['1', '2', '3', '4', '5', '6', '7'],
    pua_start := 0xE000 }

/-- C1: assign_codepoints walks the notation systems in declaration order
and, within each system, the characters in declaration order, emitting
exactly 4 NoteAtoms (variants 0..3) per character, each assigned codepoint
pua_start + running_index with one running counter incremented across the
whole walk; in particular for the single system with characters 1234567 and
pua_start 0xE000, character 1 receives codepoints 0xE000..0xE003 for
variants 0..3 and character 2 receives 0xE004..0xE007. -/
theorem claim_C1 :
    (∀ (systems : List (String × List Char)) (start : Nat),
        noteAtomsOf systems start = claimNoteAlloc start systems)
    ∧ ((assign_codepoints exampleSpec).1.toOption.map
          (fun l => l.note_atoms.take 8)
        = some
          [{ system := "number", character := '1', variant_index := 0,
             assigned_codepoint := some 0xE000 },
           { system := "number", character := '1', variant_index := 1,
             assigned_codepoint := some 0xE001 },
           { system := "number", character := '1', variant_index := 2,
             assigned_codepoint := some 0xE002 },
           { system := "number", character := '1', variant_index := 3,
             assigned_codepoint := some 0xE003 },
           { system := "number", character := '2', variant_index := 0,
             assigned_codepoint := some 0xE004 },
           { system := "number", character := '2', variant_index := 1,
             assigned_codepoint := some 0xE005 },
           { system := "number", character := '2', variant_index := 2,
             assigned_codepoint := some 0xE006 },
           { system := "number", character := '2', variant_index := 3,
             assigned_codepoint := some 0xE007 }]) := by
  exact ⟨noteAtomsOf_eq, by decide⟩

/-- Appending one new character to the end of one named system's character
list: the operation claim C5 quantifies over, applied to the spec's
notation-systems dict. -/
def appendCharToSystem (spec : AtomSpec) (system : String) (c : Char) :
    AtomSpec :=
  { spec with
      notation_systems :=
        spec.notation_systems.map
          (fun s => if s.1 = system then (s.1, s.2 ++ [c]) else s) }

/-- A two-system spec used for claim C5: system a with character x, then
system b with character y. -/
def c5Spec : AtomSpec :=
  { notation_systems := [("a", ['x']), ("b", ['y'])],
    smufl_symbols := [exampleSymbol],
    geometry := exampleGeometry,
    character_order := ['x', 'y'],
    pua_start := 0xE600 }

/-- C5 counterexample: appending character z to the end of the FIRST system's
character list shifts every atom of the second system by 4 codepoints: atom
(b, y, variant 0) is assigned 0xE604 before the append and 0xE608 after it,
so a previously existing atom's codepoint changes. -/
theorem claim_C5_counterexample :
    ((assign_codepoints c5Spec).1.toOption.map
        (fun l => l.note_atoms.find?
          (fun a => a.system == "b" && a.character == 'y' && a.variant_index == 0)))
      = some (some { system := "b", character := 'y', variant_index := 0,
                     assigned_codepoint := some 0xE604 })
    ∧ ((assign_codepoints (appendCharToSystem c5Spec "a" 'z')).1.toOption.map
        (fun l => l.note_atoms.find?
          (fun a => a.system == "b" && a.character == 'y' && a.variant_index == 0)))
      = some (some { system := "b", character := 'y', variant_index := 0,
                     assigned_codepoint := some 0xE608 }) := by
  exact ⟨by decide, by decide⟩

lemma map_append_ne (system : String) (c : Char)
    (pre : List (String × List Char)) (h : ∀ s ∈ pre, s.1 ≠ system) :
    pre.map (fun s => if s.1 = system then (s.1, s.2 ++ [c]) else s) = pre := by
  induction pre with
  | nil => rfl
  | cons p ps ih =>
      simp only [List.map_cons]
      rw [if_neg (h p (List.mem_cons_self p ps))]
      rw [ih (fun s hs => h s (List.mem_cons_of_mem p hs))]

lemma claimNoteAlloc_append (L1 L2 : List (String × List Char)) :
    ∀ cp, claimNoteAlloc cp (L1 ++ L2)
      = claimNoteAlloc cp L1 ++ claimNoteAlloc (cp + 4 * totalChars L1) L2 := by
  induction L1 with
  | nil => intro cp; simp [claimNoteAlloc, totalChars]
  | cons s rest ih =>
      intro cp
      have h : cp + 4 * s.2.length + 4 * totalChars rest
          = cp + 4 * totalChars (s :: rest) := by
        simp only [totalChars, List.map_cons, List.sum_cons]
        ring
      show claimChars s.1 cp s.2 ++
          claimNoteAlloc (cp + 4 * s.2.length) (rest ++ L2) = _
      rw [ih, h, claimNoteAlloc, List.append_assoc]

/-- C5 amended: appending a new character to the end of the LAST system's
character list leaves the codepoint of every previously existing atom
unchanged (the earlier atoms form an unchanged initial segment of the new
allocation).  For non-last systems the property fails, because the single
running counter shifts every later system (see the counterexample). -/
theorem claim_C5_amended (spec : AtomSpec) (pre : List (String × List Char))
    (system : String) (chars : List Char) (c : Char)
    (hsys : spec.notation_systems = pre ++ [(system, chars)])
    (hname : ∀ s ∈ pre, s.1 ≠ system) :
    (noteAtomsOf (appendCharToSystem spec system c).notation_systems
        spec.pua_start).take
      (noteAtomsOf spec.notation_systems spec.pua_start).length
    = noteAtomsOf spec.notation_systems spec.pua_start := by
  have hmap : (appendCharToSystem spec system c).notation_systems
      = pre ++ [(system, chars ++ [c])] := by
    simp only [appendCharToSystem, hsys, List.map_append, List.map_cons,
      List.map_nil]
    rw [map_append_ne system c pre hname]
    simp
  rw [hmap, hsys, noteAtomsOf_eq, noteAtomsOf_eq,
    claimNoteAlloc_append, claimNoteAlloc_append]
  simp only [claimNoteAlloc, List.append_nil, claimChars_append,
    ← List.append_assoc]
  exact List.take_left _ _

/-- Witness for the amended C5: the concrete two-system spec with a character
appended to the last system. -/
theorem claim_C5_amended_witness :
    (noteAtomsOf (appendCharToSystem c5Spec "b" 'z').notation_systems
        c5Spec.pua_start).take
      (noteAtomsOf c5Spec.notation_systems c5Spec.pua_start).length
    = noteAtomsOf c5Spec.notation_systems c5Spec.pua_start :=
  claim_C5_amended c5Spec [("a", ['x'])] "b" ['y'] 'z' rfl (by decide)

/-- The spec used for claim C7: one character allocated starting at 0xF8FC,
so the four note atoms occupy 0xF8FC..0xF8FF, exactly reaching the
private-range ceiling. -/
def c7Spec : AtomSpec :=
  { notation_systems := [("n", ['x'])],
    smufl_symbols := [exampleSymbol],
    geometry := exampleGeometry,
    character_order := ['x'],
    pua_start := 0xF8FC }

/-- C7 counterexample: for this spec pua_start + 4 N - 1 = 0xF8FF, which is
not greater than 0xF8FF, so by the claim no overflow error should be raised;
but assign_codepoints raises OverflowError (its message reporting 0x1900
codepoints used), because the code compares the one-past-the-end counter
cp = pua_start + 4 N against 0xF8FF (line 260). -/
theorem claim_C7_counterexample :
    ¬ (c7Spec.pua_start + 4 * totalChars c7Spec.notation_systems - 1 > 0xF8FF)
    ∧ (assign_codepoints c7Spec).1
        = Except.error (AllocError.overflow 0x1900) := by
  exact ⟨by decide, by rfl⟩

/-- C7 amended: for a spec with at least one symbol (with an empty symbol
list assign_codepoints raises NameError first, see C10), the allocator
raises OverflowError exactly when pua_start + 4 N > 0xF8FF, i.e. also when
the last assigned codepoint is exactly 0xF8FF; when it does not raise, every
assigned note-atom codepoint is at most 0xF8FF (in fact at most 0xF8FE). -/
theorem claim_C7_amended (spec : AtomSpec) (h : spec.smufl_symbols ≠ []) :
    ((∃ used, (assign_codepoints spec).1
        = Except.error (AllocError.overflow used)) ↔
      spec.pua_start + 4 * totalChars spec.notation_systems > 0xF8FF)
    ∧ (∀ l, (assign_codepoints spec).1 = Except.ok l →
        ∀ a ∈ l.note_atoms, ∀ v, a.assigned_codepoint = some v →
          v ≤ 0xF8FF) := by
  cases hs : spec.smufl_symbols with
  | nil => exact absurd hs h
  | cons s0 rest =>
      have hr := assign_result_cons spec s0 rest hs
      by_cases hc :
          spec.pua_start + 4 * totalChars spec.notation_systems > 0xF8FF
      · rw [if_pos hc] at hr
        refine ⟨⟨fun _ => hc, fun _ => ⟨_, hr⟩⟩, ?_⟩
        intro l hl
        exact Except.noConfusion (hr.symm.trans hl)
      · rw [if_neg hc] at hr
        refine ⟨⟨?_, fun hgt => absurd hgt hc⟩, ?_⟩
        · rintro ⟨used, hu⟩
          exact Except.noConfusion (hr.symm.trans hu)
        · intro l hl a ha v hv
          have heq := Except.ok.inj (hr.symm.trans hl)
          subst heq
          obtain ⟨k, hk, hcp⟩ :=
            mem_claimNoteAlloc spec.notation_systems spec.pua_start a ha
          have hv2 := Option.some.inj (hv.symm.trans hcp)
          omega

/-- Witness for the amended C7 at the concrete overflowing spec. -/
theorem claim_C7_amended_witness :
    ((∃ used, (assign_codepoints c7Spec).1
        = Except.error (AllocError.overflow used)) ↔
      c7Spec.pua_start + 4 * totalChars c7Spec.notation_systems > 0xF8FF)
    ∧ (∀ l, (assign_codepoints c7Spec).1 = Except.ok l →
        ∀ a ∈ l.note_atoms, ∀ v, a.assigned_codepoint = some v →
          v ≤ 0xF8FF) :=
  claim_C7_amended c7Spec (by decide)

/-- C8 counterexample: assign_codepoints does NOT leave every field of its
input spec unchanged: after the call, the smufl_symbols field of the input
differs from its original value (each symbol has had assigned_codepoint set
in place, line 245). -/
theorem claim_C8_counterexample :
    (assign_codepoints exampleSpec).2.smufl_symbols
      ≠ exampleSpec.smufl_symbols := by
  decide

/-- C8 amended: assign_codepoints is not a pure function over immutable
inputs: it mutates the input spec by setting assigned_codepoint on every
SymbolSpec in the symbol list in place (also on the error paths), while
leaving every other field of the spec unchanged; and whenever it returns a
layout, the layout's symbols list is the input's (now mutated) symbol
list. -/
theorem claim_C8_amended (spec : AtomSpec) :
    (assign_codepoints spec).2
      = { spec with smufl_symbols := mutateSymbols spec.smufl_symbols }
    ∧ ((assign_codepoints spec).1.toOption.map (fun l => l.symbols))
      = ((assign_codepoints spec).1.toOption.map
          (fun _ => (assign_codepoints spec).2.smufl_symbols)) := by
  refine ⟨assign_spec_after spec, ?_⟩
  rw [assign_spec_after]
  cases hs : spec.smufl_symbols with
  | nil =>
      rw [assign_result_nil spec hs]
      rfl
  | cons s0 rest =>
      have hr := assign_result_cons spec s0 rest hs
      by_cases hc :
          spec.pua_start + 4 * totalChars spec.notation_systems > 0xF8FF
      · rw [if_pos hc] at hr
        rw [hr]
        rfl
      · rw [if_neg hc] at hr
        rw [hr]
        rfl

/-- The spec used for claim C10: non-empty system list, empty symbol list. -/
def c10Spec : AtomSpec := { exampleSpec with smufl_symbols := [] }

/-- C10: for every AtomSpec whose symbol list is empty and whose system list
is non-empty, assign_codepoints does not return a layout: it raises the
NameError of the symbols-range summary line (line 257), which reads the
local variable symbols_start that is bound only when at least one symbol
exists; so allocation never completes successfully on such a spec. -/
theorem claim_C10 (spec : AtomSpec) (hsym : spec.smufl_symbols = [])
    (_hsys : spec.notation_systems ≠ []) :
    (assign_codepoints spec).1 = Except.error AllocError.nameError
    ∧ ∀ l, (assign_codepoints spec).1 = Except.ok l → False := by
  have hr := assign_result_nil spec hsym
  exact ⟨hr, fun l hl => Except.noConfusion (hr.symm.trans hl)⟩

/-- Witness for C10 at a concrete spec with systems but no symbols. -/
theorem claim_C10_witness :
    (assign_codepoints c10Spec).1 = Except.error AllocError.nameError
    ∧ ∀ l, (assign_codepoints c10Spec).1 = Except.ok l → False :=
  claim_C10 c10Spec rfl (by decide)

/-- Errors raised by validate_layout, carrying the data its messages report:
the index of the first unassigned atom (line 1022), the deduplicated list of
duplicated codepoint values (line 1028, the set the message prints), or the
first out-of-range codepoint (lines 1040-1043). -/
inductive ValidationError where
  | notAssigned : Nat → ValidationError
  | duplicates : List Nat → ValidationError
  | outOfRange : Nat → ValidationError
deriving DecidableEq, Repr

/-- The combined atom list of validate_layout (line 1019), note atoms then
symbols, viewed through their assigned codepoints. -/
def atomCodepoints (layout : CodepointLayout) : List (Option Nat) :=
  layout.note_atoms.map (fun a => a.assigned_codepoint) ++
    layout.symbols.map (fun s => s.assigned_codepoint)

/-- Membership in the valid codepoint spaces (lines 1034-1038): SMuFL PUA
0xE000-0xF8FF or Unicode Music 0x1D100-0x1D1FF. -/
def validCodepoint (cp : Nat) : Bool :=
  (0xE000 ≤ cp && cp ≤ 0xF8FF) || (0x1D100 ≤ cp && cp ≤ 0x1D1FF)

/-- Stage 5, validate_layout (lines 1006-1047).  The Python function runs
its checks in sequence and raises at the first violation it meets: the
assignment check raises at the first unassigned atom with that atom's index;
the duplicate check raises with the set of duplicated codepoint values; the
range check raises at the first out-of-range codepoint.  A check after a
failing one is never run. -/
def validate_layout (layout : CodepointLayout) : Except ValidationError Unit :=
  let all := atomCodepoints layout
  match all.findIdx? (fun o => o.isNone) with
  | some i => Except.error (ValidationError.notAssigned i)
  | none =>
      let codepoints := all.filterMap id
      if codepoints.length ≠ codepoints.dedup.length then
        Except.error (ValidationError.duplicates
          ((codepoints.filter (fun cp => codepoints.count cp > 1)).dedup))
      else
        match codepoints.find? (fun cp => !(validCodepoint cp)) with
        | some cp => Except.error (ValidationError.outOfRange cp)
        | none => Except.ok ()

/-- A layout with violations of two different checks: two unassigned atoms
(positions 0 and 3) and a duplicated codepoint 0xE005 (positions 1 and 2). -/
def multiViolationLayout : CodepointLayout :=
  { note_atoms :=
      [{ system := "n", character := 'a', variant_index := 0,
         assigned_codepoint := none },
       { system := "n", character := 'a', variant_index := 1,
         assigned_codepoint := some 0xE005 },
       { system := "n", character := 'a', variant_index := 2,
         assigned_codepoint := some 0xE005 },
       { system := "n", character := 'a', variant_index := 3,
         assigned_codepoint := none }],
    symbols := [],
    notes_range := (0, 0),
    symbols_range := (0, 0) }

/-- A layout whose only defect is two atoms both assigned 0xE005 (example
scenario 3). -/
def dupLayout : CodepointLayout :=
  { note_atoms :=
      [{ system := "n", character := 'a', variant_index := 0,
         assigned_codepoint := some 0xE005 },
       { system := "n", character := 'b', variant_index := 0,
         assigned_codepoint := some 0xE005 }],
    symbols := [],
    notes_range := (0xE005, 0xE005),
    symbols_range := (0, 0) }

/-- C6 counterexample: on a layout with two unassigned atoms AND a duplicated
codepoint, validate_layout reports a single error naming only the first
unassigned atom (index 0); the second unassigned atom and the duplicate
violation are not reported, so the checks are neither independent nor
exhaustive in their reporting. -/
theorem claim_C6_counterexample :
    validate_layout multiViolationLayout
      = Except.error (ValidationError.notAssigned 0)
    ∧ (atomCodepoints multiViolationLayout).countP (fun o => o.isNone) = 2
    ∧ (atomCodepoints multiViolationLayout).count (some 0xE005) = 2 := by
  exact ⟨by rfl, by decide, by decide⟩

/-- C6 amended: validate_layout runs its checks sequentially and stops at the
first failing check; the assignment and range checks report only the first
violation, while the duplicate check reports the set of duplicated codepoint
VALUES, not the offending atoms: validating a layout with two atoms both
assigned 0xE005 raises a duplicate-codepoint error naming the codepoint
0xE005 once, with no atom identities in the error. -/
theorem claim_C6_amended :
    validate_layout dupLayout
      = Except.error (ValidationError.duplicates [0xE005]) := by
  rfl

/-- Glyph metrics obtained from FontForge: the bounding box returned by
boundingBox() and the advance width (glyph.width). -/
structure Metrics where
  min_x : ℚ
  min_y : ℚ
  max_x : ℚ
  max_y : ℚ
  width : ℚ
deriving DecidableEq, Repr

/-- A FontForge 6-value affine transform tuple as passed to addReference. -/
structure Transform where
  xx : ℚ
  xy : ℚ
  yx : ℚ
  yy : ℚ
  dx : ℚ
  dy : ℚ
deriving DecidableEq, Repr

/-- One reference added to a composite glyph: source glyph plus transform.
Source glyphs are identified by their glyph name; the model uses the
character or symbol key as the name. -/
structure GlyphRef where
  source : String
  transform : Transform
deriving DecidableEq, Repr

/-- A composite glyph as produced by font.createChar, the addReference
calls, and the final width assignment. -/
structure CompositeGlyph where
  codepoint : Option Nat
  gname : String
  refs : List GlyphRef
  width : ℚ
deriving DecidableEq, Repr

/-- Python int() truncation toward zero, applied by the code to the
accidental offsets before building transforms. -/
def pyInt (q : ℚ) : Int :=
  if q < 0 then -Rat.floor (-q) else Rat.floor q

/-- Fixed double-dot scale constant (lines 850 and 555). -/
def double_dot_scale : ℚ := 0.6

/-- Double-dot vertical spacing (lines 852 and 556): two scaled dot
heights. -/
def double_dot_spacing (dot : Metrics) : ℚ :=
  2 * (dot.max_y - dot.min_y) * double_dot_scale

/-- The 5-percent-of-character-height dot adjustment (lines 854-856 and
558-560). -/
def dot_adjustment (base : Metrics) : ℚ := (base.max_y - base.min_y) * 0.05

/-- Horizontal dot offset (lines 824-841; the same block appears verbatim at
lines 544-552): bounding-box centering of the dot over the base glyph, a
fixed nudge of 0.8 dot widths, then the per-character manual corrections. -/
def dot_x_offset (character : Char) (base dot : Metrics) : ℚ :=
  let base_width := base.max_x - base.min_x
  let dot_width := dot.max_x - dot.min_x
  let off0 := base.min_x + (base_width - dot_width) / 2 - dot.min_x +
    dot_width * 0.8
  let off1 := if character = '2' then off0 - base_width * 0.1 else off0
  let off2 :=
    if character = '3' ∨ character = '5' ∨ character = '6' then
      off1 - base_width * 0.17
    else off1
  let off3 := if character = '4' then off2 + base_width * 0.04 else off2
  if character = '7' then off3 - base_width * 0.04 else off3

/-- Vertical position of the dot-above variants (lines 859, 863 and 588,
592). -/
def dot_above_y_pos (base dot : Metrics) (geom : Geometry) : ℚ :=
  base.max_y - dot.min_y + geom.dot_above_gap + dot_adjustment base

/-- Vertical position of the dot-below variants (lines 869, 873 and 598,
602). -/
def dot_below_y_pos (base dot : Metrics) (geom : Geometry) : ℚ :=
  base.min_y - dot.max_y - geom.dot_below_gap - dot_adjustment base

/-- The octave-dot references added for one variant (lines 858-876; the same
construction appears at lines 587-605): one full-size dot above, two
60-percent dots above, one full-size dot below, or two 60-percent dots
below. -/
def octave_dot_refs (geom : Geometry) (base dot : Metrics) (dot_name : String)
    (dx : ℚ) (variant_index : Nat) : List GlyphRef :=
  if variant_index = 0 then
    [{ source := dot_name,
       transform := ⟨1, 0, 0, 1, dx, dot_above_y_pos base dot geom⟩ }]
  else if variant_index = 1 then
    [{ source := dot_name,
       transform := ⟨double_dot_scale, 0, 0, double_dot_scale, dx,
         dot_above_y_pos base dot geom⟩ },
     { source := dot_name,
       transform := ⟨double_dot_scale, 0, 0, double_dot_scale, dx,
         dot_above_y_pos base dot geom + double_dot_spacing dot⟩ }]
  else if variant_index = 2 then
    [{ source := dot_name,
       transform := ⟨1, 0, 0, 1, dx, dot_below_y_pos base dot geom⟩ }]
  else if variant_index = 3 then
    [{ source := dot_name,
       transform := ⟨double_dot_scale, 0, 0, double_dot_scale, dx,
         dot_below_y_pos base dot geom⟩ },
     { source := dot_name,
       transform := ⟨double_dot_scale, 0, 0, double_dot_scale, dx,
         dot_below_y_pos base dot geom - double_dot_spacing dot⟩ }]
  else []

/-- One octave-variant note glyph, loop body of build_font (lines 843-878):
base reference at identity, dot references per variant, advance width copied
from the base glyph. -/
def makeNoteGlyph (geom : Geometry) (base : Metrics) (base_name : String)
    (dot : Metrics) (dot_name : String) (atom : NoteAtom) : CompositeGlyph :=
  { codepoint := atom.assigned_codepoint,
    gname := atom.character.toString ++ "_v" ++ toString atom.variant_index,
    refs := { source := base_name, transform := ⟨1, 0, 0, 1, 0, 0⟩ } ::
      octave_dot_refs geom base dot dot_name
        (dot_x_offset atom.character base dot) atom.variant_index,
    width := base.width }

/-- Accidental x offset as computed in create_accidental_composites
(line 407): align the accidental's left ink edge with the base's right ink
edge plus the configured gap. -/
def accComposite_x_offset (base acc : Metrics) (geom : Geometry) : Int :=
  pyInt (base.max_x - acc.min_x + geom.accidental_x_offset)

/-- Accidental y offset as computed in create_accidental_composites
(line 408): center the accidental's bounding box on the base's, plus the
configured offset. -/
def accComposite_y_offset (base acc : Metrics) (geom : Geometry) : Int :=
  pyInt ((base.max_y + base.min_y - acc.max_y - acc.min_y) / 2 +
    geom.accidental_y_offset)

/-- One accidental composite glyph, loop body of create_accidental_composites
(lines 394-422): base at identity, scaled accidental at the computed
offsets, advance width copied from the base glyph (line 422). -/
def makeAccidentalComposite (geom : Geometry) (base : Metrics)
    (base_name : String) (acc : Metrics) (acc_name : String)
    (base_char : Char) (acc_type : String) (composite_cp : Nat) :
    CompositeGlyph :=
  { codepoint := some composite_cp,
    gname := base_char.toString ++ "_" ++ acc_type,
    refs := [{ source := base_name, transform := ⟨1, 0, 0, 1, 0, 0⟩ },
             { source := acc_name,
               transform := ⟨geom.accidental_scale, 0, 0,
                 geom.accidental_scale,
                 (accComposite_x_offset base acc geom : ℚ),
                 (accComposite_y_offset base acc geom : ℚ)⟩ }],
    width := base.width }

/-- Accidental x offset as computed in create_accidental_octave_composites
(line 539). -/
def combined_acc_x_offset (base acc : Metrics) (geom : Geometry) : Int :=
  pyInt (base.max_x - acc.min_x + geom.accidental_x_offset)

/-- Accidental y offset as computed in create_accidental_octave_composites
(line 540). -/
def combined_acc_y_offset (base acc : Metrics) (geom : Geometry) : Int :=
  pyInt ((base.max_y + base.min_y - acc.max_y - acc.min_y) / 2 +
    geom.accidental_y_offset)

/-- Variant names used for combined composites (lines 562-567). -/
def variant_name (variant_index : Nat) : String :=
  if variant_index = 0 then "1_dot_above"
  else if variant_index = 1 then "2_dots_above"
  else if variant_index = 2 then "1_dot_below"
  else if variant_index = 3 then "2_dots_below"
  else ""

/-- One combined accidental+octave composite glyph, loop body of
create_accidental_octave_composites (lines 569-607): base at identity, the
accidental at the offsets of lines 539-541, then the octave dot references
of lines 587-605, advance width copied from the base glyph (line 607). -/
def makeAccidentalOctaveComposite (geom : Geometry) (base : Metrics)
    (base_name : String) (acc : Metrics) (acc_name : String) (dot : Metrics)
    (dot_name : String) (base_char : Char) (acc_type : String)
    (variant_index : Nat) (composite_cp : Nat) : CompositeGlyph :=
  { codepoint := some composite_cp,
    gname := base_char.toString ++ "_" ++ acc_type ++ "_" ++
      variant_name variant_index,
    refs := { source := base_name, transform := ⟨1, 0, 0, 1, 0, 0⟩ } ::
      { source := acc_name,
        transform := ⟨geom.accidental_scale, 0, 0, geom.accidental_scale,
          (combined_acc_x_offset base acc geom : ℚ),
          (combined_acc_y_offset base acc geom : ℚ)⟩ } ::
      octave_dot_refs geom base dot dot_name
        (dot_x_offset base_char base dot) variant_index,
    width := base.width }

/-- C2: every composite glyph the resolver produces (octave-dot variant,
accidental composite, or combined accidental+octave composite) has advance
width exactly equal to the base character's advance width, regardless of the
number or type of overlays added. -/
theorem claim_C2 (geom : Geometry) (base dot acc : Metrics)
    (base_name dot_name acc_name acc_type : String) (atom : NoteAtom)
    (base_char : Char) (cp1 cp2 variant_index : Nat) :
    (makeNoteGlyph geom base base_name dot dot_name atom).width = base.width
    ∧ (makeAccidentalComposite geom base base_name acc acc_name base_char
        acc_type cp1).width = base.width
    ∧ (makeAccidentalOctaveComposite geom base base_name acc acc_name dot
        dot_name base_char acc_type variant_index cp2).width = base.width :=
  ⟨rfl, rfl, rfl⟩

/-- C3: the accidental-overlay transform (scale, x offset, y offset) computed
when resolving a combined accidental+octave composite is identical to the
one computed when resolving the accidental composite alone from the same
base metrics and geometry, for every octave variant: the overlay reference
at position 1 coincides, so adding a dot overlay never perturbs the
accidental's computed offset. -/
theorem claim_C3 (geom : Geometry) (base acc dot : Metrics)
    (base_name acc_name dot_name acc_type : String) (base_char : Char)
    (variant_index cp1 cp2 : Nat) :
    combined_acc_x_offset base acc geom = accComposite_x_offset base acc geom
    ∧ combined_acc_y_offset base acc geom
        = accComposite_y_offset base acc geom
    ∧ (makeAccidentalOctaveComposite geom base base_name acc acc_name dot
        dot_name base_char acc_type variant_index cp1).refs[1]?
      = (makeAccidentalComposite geom base base_name acc acc_name base_char
          acc_type cp2).refs[1]? := by
  refine ⟨rfl, rfl, ?_⟩
  simp [makeAccidentalOctaveComposite, makeAccidentalComposite,
    combined_acc_x_offset, accComposite_x_offset,
    combined_acc_y_offset, accComposite_y_offset]

/-- The generic centering term of the claim wording for the horizontal dot
offset: bounding-box centering plus the fixed 0.8-dot-width nudge. -/
def claimDotCentering (base dot : Metrics) : ℚ :=
  base.min_x + ((base.max_x - base.min_x) - (dot.max_x - dot.min_x)) / 2 -
    dot.min_x + 0.8 * (dot.max_x - dot.min_x)

lemma dot_x_offset_eq (c : Char) (base dot : Metrics) :
    dot_x_offset c base dot = claimDotCentering base dot +
      (if c = '2' then -((base.max_x - base.min_x) * 0.1) else 0) +
      (if c = '3' ∨ c = '5' ∨ c = '6' then
        -((base.max_x - base.min_x) * 0.17) else 0) +
      (if c = '4' then (base.max_x - base.min_x) * 0.04 else 0) +
      (if c = '7' then -((base.max_x - base.min_x) * 0.04) else 0) := by
  simp only [dot_x_offset, claimDotCentering]
  split_ifs <;> ring

/-- The base-character bounding box of example scenario 2 (advance width is
irrelevant to the placement and set arbitrarily). -/
def c4Base : Metrics :=
  { min_x := 10, min_y := 0, max_x := 90, max_y := 700, width := 600 }

/-- The dot bounding box of example scenario 2. -/
def c4Dot : Metrics :=
  { min_x := 0, min_y := 0, max_x := 40, max_y := 40, width := 150 }

/-- C4: the 1-dot-above overlay's vertical offset is base_max_y - dot_min_y
+ gap_above + 5 percent of the base glyph's height, and its horizontal
offset is the bounding-box centering term plus 0.8 dot widths plus the
per-character manual correction (character 2: minus 10 percent of its own
width; 3, 5, 6: minus 17 percent; 4: plus 4 percent; 7: minus 4 percent;
all other characters: no correction); these are exactly the offsets of the
dot reference in the variant-0 glyph; and for base bbox (10, 0, 90, 700),
dot bbox (0, 0, 40, 40), gap_above 50, the vertical offset is 785 and the
horizontal offset is 62. -/
theorem claim_C4 (base dot : Metrics) (geom : Geometry) (c : Char)
    (sys base_name dot_name : String) (cp : Nat)
    (h : c ∉ ['2', '3', '4', '5', '6', '7']) :
    dot_above_y_pos base dot geom
      = base.max_y - dot.min_y + geom.dot_above_gap +
        (0.05 : ℚ) * (base.max_y - base.min_y)
    ∧ dot_x_offset c base dot = claimDotCentering base dot
    ∧ dot_x_offset '2' base dot
      = claimDotCentering base dot - (base.max_x - base.min_x) * 0.1
    ∧ dot_x_offset '3' base dot
      = claimDotCentering base dot - (base.max_x - base.min_x) * 0.17
    ∧ dot_x_offset '5' base dot
      = claimDotCentering base dot - (base.max_x - base.min_x) * 0.17
    ∧ dot_x_offset '6' base dot
      = claimDotCentering base dot - (base.max_x - base.min_x) * 0.17
    ∧ dot_x_offset '4' base dot
      = claimDotCentering base dot + (base.max_x - base.min_x) * 0.04
    ∧ dot_x_offset '7' base dot
      = claimDotCentering base dot - (base.max_x - base.min_x) * 0.04
    ∧ (makeNoteGlyph geom base base_name dot dot_name
        { system := sys, character := c, variant_index := 0,
          assigned_codepoint := some cp }).refs
      = [{ source := base_name, transform := ⟨1, 0, 0, 1, 0, 0⟩ },
         { source := dot_name, transform := ⟨1, 0, 0, 1,
           dot_x_offset c base dot, dot_above_y_pos base dot geom⟩ }]
    ∧ dot_above_y_pos c4Base c4Dot exampleGeometry = 785
    ∧ dot_x_offset '1' c4Base c4Dot = 62 := by
  simp only [List.mem_cons, List.not_mem_nil, or_false] at h
  push_neg at h
  obtain ⟨h2, h3, h4, h5, h6, h7⟩ := h
  have h356 : ¬(c = '3' ∨ c = '5' ∨ c = '6') := by
    push_neg
    exact ⟨h3, h5, h6⟩
  refine ⟨?_, ?_, ?_, ?_, ?_, ?_, ?_, ?_, rfl, ?_, ?_⟩
  · simp only [dot_above_y_pos, dot_adjustment]
    ring
  · rw [dot_x_offset_eq, if_neg h2, if_neg h356, if_neg h4, if_neg h7]
    ring
  · rw [dot_x_offset_eq, if_pos (rfl : ('2' : Char) = '2'),
      if_neg (by decide :
        ¬(('2' : Char) = '3' ∨ ('2' : Char) = '5' ∨ ('2' : Char) = '6')),
      if_neg (by decide : ¬('2' : Char) = '4'),
      if_neg (by decide : ¬('2' : Char) = '7')]
    ring
  · rw [dot_x_offset_eq,
      if_neg (by decide : ¬('3' : Char) = '2'),
      if_pos (by decide :
        ('3' : Char) = '3' ∨ ('3' : Char) = '5' ∨ ('3' : Char) = '6'),
      if_neg (by decide : ¬('3' : Char) = '4'),
      if_neg (by decide : ¬('3' : Char) = '7')]
    ring
  · rw [dot_x_offset_eq,
      if_neg (by decide : ¬('5' : Char) = '2'),
      if_pos (by decide :
        ('5' : Char) = '3' ∨ ('5' : Char) = '5' ∨ ('5' : Char) = '6'),
      if_neg (by decide : ¬('5' : Char) = '4'),
      if_neg (by decide : ¬('5' : Char) = '7')]
    ring
  · rw [dot_x_offset_eq,
      if_neg (by decide : ¬('6' : Char) = '2'),
      if_pos (by decide :
        ('6' : Char) = '3' ∨ ('6' : Char) = '5' ∨ ('6' : Char) = '6'),
      if_neg (by decide : ¬('6' : Char) = '4'),
      if_neg (by decide : ¬('6' : Char) = '7')]
    ring
  · rw [dot_x_offset_eq,
      if_neg (by decide : ¬('4' : Char) = '2'),
      if_neg (by decide :
        ¬(('4' : Char) = '3' ∨ ('4' : Char) = '5' ∨ ('4' : Char) = '6')),
      if_pos (rfl : ('4' : Char) = '4'),
      if_neg (by decide : ¬('4' : Char) = '7')]
    ring
  · rw [dot_x_offset_eq,
      if_neg (by decide : ¬('7' : Char) = '2'),
      if_neg (by decide :
        ¬(('7' : Char) = '3' ∨ ('7' : Char) = '5' ∨ ('7' : Char) = '6')),
      if_neg (by decide : ¬('7' : Char) = '4'),
      if_pos (rfl : ('7' : Char) = '7')]
    ring
  · norm_num [dot_above_y_pos, dot_adjustment, c4Base, c4Dot,
      exampleGeometry]
  · rw [dot_x_offset_eq,
      if_neg (by decide : ¬('1' : Char) = '2'),
      if_neg (by decide :
        ¬(('1' : Char) = '3' ∨ ('1' : Char) = '5' ∨ ('1' : Char) = '6')),
      if_neg (by decide : ¬('1' : Char) = '4'),
      if_neg (by decide : ¬('1' : Char) = '7')]
    norm_num [claimDotCentering, c4Base, c4Dot]

/-- Witness for C4 at the scenario-2 metrics with the uncorrected character
1. -/
theorem claim_C4_witness :
    dot_above_y_pos c4Base c4Dot exampleGeometry
      = c4Base.max_y - c4Dot.min_y + exampleGeometry.dot_above_gap +
        (0.05 : ℚ) * (c4Base.max_y - c4Base.min_y)
    ∧ dot_x_offset '1' c4Base c4Dot = claimDotCentering c4Base c4Dot
    ∧ dot_x_offset '2' c4Base c4Dot
      = claimDotCentering c4Base c4Dot - (c4Base.max_x - c4Base.min_x) * 0.1
    ∧ dot_x_offset '3' c4Base c4Dot
      = claimDotCentering c4Base c4Dot - (c4Base.max_x - c4Base.min_x) * 0.17
    ∧ dot_x_offset '5' c4Base c4Dot
      = claimDotCentering c4Base c4Dot - (c4Base.max_x - c4Base.min_x) * 0.17
    ∧ dot_x_offset '6' c4Base c4Dot
      = claimDotCentering c4Base c4Dot - (c4Base.max_x - c4Base.min_x) * 0.17
    ∧ dot_x_offset '4' c4Base c4Dot
      = claimDotCentering c4Base c4Dot + (c4Base.max_x - c4Base.min_x) * 0.04
    ∧ dot_x_offset '7' c4Base c4Dot
      = claimDotCentering c4Base c4Dot - (c4Base.max_x - c4Base.min_x) * 0.04
    ∧ (makeNoteGlyph exampleGeometry c4Base "1" c4Dot "."
        { system := "number", character := '1', variant_index := 0,
          assigned_codepoint := some 0xE000 }).refs
      = [{ source := "1", transform := ⟨1, 0, 0, 1, 0, 0⟩ },
         { source := ".", transform := ⟨1, 0, 0, 1,
           dot_x_offset '1' c4Base c4Dot,
           dot_above_y_pos c4Base c4Dot exampleGeometry⟩ }]
    ∧ dot_above_y_pos c4Base c4Dot exampleGeometry = 785
    ∧ dot_x_offset '1' c4Base c4Dot = 62 :=
  claim_C4 c4Base c4Dot exampleGeometry '1' "number" "1" "." 0xE000
    (by decide)

/-- The per-atom failure of the build_font note-glyph loop: the RuntimeError
raised when a base character or its bounding box is unavailable
(lines 807-818). -/
inductive BuildError where
  | missingBaseGlyph : Char → BuildError
deriving DecidableEq, Repr

/-- The note-glyph creation loop of build_font (lines 806-881).  The font is
modelled as a partial lookup from characters to metrics; a missing base
glyph raises RuntimeError, ending the whole loop.  The strict_mode flag that
build_font receives is not consulted anywhere in this loop, which the
parameter reflects. -/
def createNoteGlyphs (strict_mode : Bool) (font : Char → Option Metrics)
    (dot : Metrics) (dot_name : String) (geom : Geometry) :
    List NoteAtom → Except BuildError (List CompositeGlyph)
  | [] => Except.ok []
  | atom :: rest =>
      match font atom.character with
      | none => Except.error (BuildError.missingBaseGlyph atom.character)
      | some base =>
          match createNoteGlyphs strict_mode font dot dot_name geom rest with
          | Except.error e => Except.error e
          | Except.ok gs =>
              Except.ok (makeNoteGlyph geom base atom.character.toString dot
                dot_name atom :: gs)

/-- The per-character loop of create_accidental_composites for one
accidental type (lines 373-427): a missing base character prints an error
and continues with the next character (lines 374-381); the enumerate index
advances regardless, keeping later composite codepoints aligned with
character positions.  create_accidental_composites receives no strict flag
at all. -/
def accidentalCompositesLoop (font : Char → Option Metrics) (acc : Metrics)
    (acc_name : String) (acc_type : String) (geom : Geometry)
    (pua_start : Nat) : Nat → List Char → List CompositeGlyph
  | _, [] => []
  | i, c :: cs =>
      match font c with
      | none =>
          accidentalCompositesLoop font acc acc_name acc_type geom pua_start
            (i + 1) cs
      | some base =>
          makeAccidentalComposite geom base c.toString acc acc_name c acc_type
            (pua_start + i) ::
            accidentalCompositesLoop font acc acc_name acc_type geom pua_start
              (i + 1) cs

lemma createNoteGlyphs_strict_irrelevant (s1 s2 : Bool)
    (font : Char → Option Metrics) (dot : Metrics) (dot_name : String)
    (geom : Geometry) :
    ∀ atoms, createNoteGlyphs s1 font dot dot_name geom atoms
      = createNoteGlyphs s2 font dot dot_name geom atoms := by
  intro atoms
  induction atoms with
  | nil => rfl
  | cons a rest ih =>
      cases hf : font a.character with
      | none => simp [createNoteGlyphs, hf]
      | some base => simp [createNoteGlyphs, hf, ih]

/-- A font lookup in which character y is present but character x is not. -/
def c9Font : Char → Option Metrics :=
  fun c => if c = 'y' then some c4Base else none

/-- First note atom of the C9 counterexample, with the missing base
character x. -/
def c9AtomX : NoteAtom :=
  { system := "n", character := 'x', variant_index := 0,
    assigned_codepoint := some 0xE600 }

/-- Second note atom of the C9 counterexample, whose base character y is
available. -/
def c9AtomY : NoteAtom :=
  { system := "n", character := 'y', variant_index := 0,
    assigned_codepoint := some 0xE601 }

/-- C9 counterexample: with strict mode OFF, a missing base glyph for the
first atom makes the build_font note-glyph loop abort the whole batch with
RuntimeError; the second atom is never processed even though its base
character is available, contradicting that outside strict mode the
remaining atoms in the batch are still processed. -/
theorem claim_C9_counterexample :
    createNoteGlyphs false c9Font c4Dot "." exampleGeometry [c9AtomX, c9AtomY]
      = Except.error (BuildError.missingBaseGlyph 'x')
    ∧ c9Font 'y' = some c4Base := by
  exact ⟨rfl, rfl⟩

/-- C9 amended: in the build_font note-glyph loop a missing base glyph is
fatal for the WHOLE batch, regardless of strict mode (the loop never
consults the flag); in the accidental-composite loops a missing base glyph
is fatal only for that atom and the remaining characters are still
processed, again independently of strict mode, which those loops do not
receive. -/
theorem claim_C9_amended (strict : Bool) (font : Char → Option Metrics)
    (dot acc : Metrics) (dot_name acc_name acc_type : String)
    (geom : Geometry) (atom : NoteAtom) (rest : List NoteAtom)
    (pua_start i : Nat) (c : Char) (cs : List Char)
    (hb : font atom.character = none) (hc : font c = none) :
    createNoteGlyphs strict font dot dot_name geom (atom :: rest)
      = Except.error (BuildError.missingBaseGlyph atom.character)
    ∧ accidentalCompositesLoop font acc acc_name acc_type geom pua_start i
        (c :: cs)
      = accidentalCompositesLoop font acc acc_name acc_type geom pua_start
          (i + 1) cs
    ∧ (∀ atoms, createNoteGlyphs true font dot dot_name geom atoms
        = createNoteGlyphs false font dot dot_name geom atoms) := by
  refine ⟨?_, ?_, createNoteGlyphs_strict_irrelevant true false font dot
    dot_name geom⟩
  · simp [createNoteGlyphs, hb]
  · simp [accidentalCompositesLoop, hc]

/-- Witness for the amended C9 at the concrete font with character x
missing. -/
theorem claim_C9_amended_witness :
    createNoteGlyphs false c9Font c4Dot "." exampleGeometry [c9AtomX]
      = Except.error (BuildError.missingBaseGlyph c9AtomX.character)
    ∧ accidentalCompositesLoop c9Font c4Base "#" "sharp" exampleGeometry
        0xE1F0 0 ['x']
      = accidentalCompositesLoop c9Font c4Base "#" "sharp" exampleGeometry
          0xE1F0 1 []
    ∧ (∀ atoms, createNoteGlyphs true c9Font c4Dot "." exampleGeometry atoms
        = createNoteGlyphs false c9Font c4Dot "." exampleGeometry atoms) :=
  claim_C9_amended false c9Font c4Dot c4Base "." "#" "sharp" exampleGeometry
    c9AtomX [] 0xE1F0 0 'x' [] rfl rfl

end Fontgen
